import Mathlib

/-!
Shallow embedding of `KubernetesInterpreter.py` (class `KubernetesCodeExecutor`
and the tool wrapper `KubernetesExecutionTool`).

The Kubernetes platform is modelled as an environment of call outcomes:
each API call the code makes either returns a value or fails with an
`ApiError` (the embedding of `kubernetes.client.rest.ApiException`,
carrying an HTTP-like status code and a reason string).  The functions
below are direct translations of the Python methods; each returns its
result together with the trace of platform calls it issued (`KubeOp`),
so that frame/cleanup properties can be stated about which calls happen.

Time is modelled by the accumulated sleep seconds: the Python wait loop
checks `time() - start_time < timeout_seconds` at the top of each
iteration, sleeps 2 seconds after a pending poll and 1 second after a
404 ("not yet registered") poll, so the elapsed wall-clock value at each
check is the sum of sleeps so far (API calls themselves are idealised as
instantaneous).
-/

namespace KubeExec

/-- Embedding of `kubernetes.client.rest.ApiException`: an HTTP-like status
code plus a reason string. -/
structure ApiError where
  status : Nat
  reason : String
  deriving Repr, DecidableEq

/-- Outcome of a single platform API call: a value, or an `ApiException`. -/
inductive ApiResult (α : Type) where
  | ok : α → ApiResult α
  | err : ApiError → ApiResult α
  deriving Repr

/-- Outcome of one `read_namespaced_job_status` poll, as the Python code
inspects it: either a status object with `succeeded` / `failed` truthiness,
or a raised `ApiException`. -/
inductive StatusResult where
  | st : Bool → Bool → StatusResult
  | err : ApiError → StatusResult
  deriving Repr, DecidableEq

/-- A platform API call issued by the executor (the trace alphabet). -/
inductive KubeOp where
  | createConfigMap : String → KubeOp
  | createJob : String → KubeOp
  | readJobStatus : String → KubeOp
  | listPods : String → KubeOp
  | readPodLog : String → KubeOp
  | deleteJob : String → KubeOp
  | deleteConfigMap : String → KubeOp
  deriving Repr, DecidableEq

/-- Whether an operation is one of the two deletion calls. -/
def KubeOp.isDelete : KubeOp → Bool
  | .deleteJob _ => true
  | .deleteConfigMap _ => true
  | _ => false

/-- Result of `_wait_for_job_completion`: a returned string, a re-raised
`ApiException`, or a raised `TimeoutError` (with its message). -/
inductive WaitResult where
  | out : String → WaitResult
  | raised : ApiError → WaitResult
  | timedOut : String → WaitResult
  deriving Repr, DecidableEq

/-- Result of `KubernetesCodeExecutor.run` as seen by its caller: a returned
string, or an escaping `TimeoutError` (the only exception `run` does not
convert to a string, since its `except` clause only catches `ApiException`). -/
inductive RunResult where
  | str : String → RunResult
  | timeoutError : String → RunResult
  deriving Repr, DecidableEq

/-- Whether `run` returned a string (rather than raising). -/
def RunResult.isStr : RunResult → Bool
  | .str _ => true
  | .timeoutError _ => false

/-- Platform behaviour visible to one `run` invocation. `poll i` is the
outcome of the `i`-th status query; `listPods` is the outcome of the
pod listing for this job; `readLog p` the outcome of reading pod `p`'s log;
the two `delete*Res` fields are the outcomes of the cleanup deletions. -/
structure RunEnv where
  createCmRes : ApiResult Unit
  createJobRes : ApiResult Unit
  poll : Nat → StatusResult
  listPodsRes : ApiResult (List String)
  readLogRes : String → ApiResult String
  deleteJobRes : ApiResult Unit
  deleteCmRes : ApiResult Unit

/-- Embedding of `_get_pod_logs`: returns the log string (this method never
raises: both the pod listing and the log read are inside one `try` whose
`except ApiException` returns an error string) together with its call trace. -/
def getPodLogs (jobName : String) (listPodsRes : ApiResult (List String))
    (readLogRes : String → ApiResult String) : String × List KubeOp :=
  match listPodsRes with
  | .err e =>
      ("Could not retrieve logs. Kubernetes API Error: " ++ e.reason,
       [.listPods jobName])
  | .ok [] =>
      ("Could not find pod for the job. It might have been deleted or failed to start.",
       [.listPods jobName])
  | .ok (p :: _) =>
      match readLogRes p with
      | .ok text => (text.trim, [.listPods jobName, .readPodLog p])
      | .err e =>
          ("Could not retrieve logs. Kubernetes API Error: " ++ e.reason,
           [.listPods jobName, .readPodLog p])

/-- The message of the `TimeoutError` raised by `_wait_for_job_completion`. -/
def timeoutMsg (jobName : String) (timeout : Nat) : String :=
  "Job '" ++ jobName ++ "' did not complete within " ++ toString timeout ++ " seconds."

/-- Embedding of the loop body of `_wait_for_job_completion`.  `elapsed` is the
wall-clock seconds since the loop started (sum of the sleeps so far), `i` the
index of the next status poll.  A pending status sleeps 2 seconds; a 404 from
the status query sleeps 1 second and retries; any other `ApiException` is
re-raised; once `elapsed < timeout` fails the `TimeoutError` is raised. -/
def waitLoop (timeout : Nat) (jobName : String) (env : RunEnv)
    (i elapsed : Nat) : WaitResult × List KubeOp :=
  if _h : elapsed < timeout then
    match env.poll i with
    | .st true _ =>
        let g := getPodLogs jobName env.listPodsRes env.readLogRes
        (.out g.1, .readJobStatus jobName :: g.2)
    | .st false true =>
        let g := getPodLogs jobName env.listPodsRes env.readLogRes
        (.out ("Job failed. Logs:\n" ++ g.1), .readJobStatus jobName :: g.2)
    | .st false false =>
        let r := waitLoop timeout jobName env (i + 1) (elapsed + 2)
        (r.1, .readJobStatus jobName :: r.2)
    | .err e =>
        if e.status = 404 then
          let r := waitLoop timeout jobName env (i + 1) (elapsed + 1)
          (r.1, .readJobStatus jobName :: r.2)
        else
          (.raised e, [.readJobStatus jobName])
  else
    (.timedOut (timeoutMsg jobName timeout), [])
termination_by timeout - elapsed
decreasing_by
  · omega
  · omega

/-- Embedding of `_wait_for_job_completion`: the loop starts with the clock at
zero (`start_time = time()` is taken on entry, so the deadline is measured
from the first poll attempt, not from job creation). -/
def waitForJobCompletion (timeout : Nat) (jobName : String) (env : RunEnv) :
    WaitResult × List KubeOp :=
  waitLoop timeout jobName env 0 0

/-- The call trace of `_cleanup_resources`: both deletions are always
attempted (each in its own `try`), job first, configmap second, regardless
of either outcome. -/
def cleanupResourcesTrace (jobName configmapName : String) : List KubeOp :=
  [.deleteJob jobName, .deleteConfigMap configmapName]

/-- The error messages `_cleanup_resources` prints: a 404 on either deletion
is ignored silently, any other `ApiException` is reported; the method itself
always returns normally (it is total, with no error result). -/
def cleanupResourcesReports (jobName configmapName : String)
    (deleteJobRes deleteCmRes : ApiResult Unit) : List String :=
  (match deleteJobRes with
   | .ok _ => []
   | .err e =>
       if e.status ≠ 404 then
         ["Error deleting job '" ++ jobName ++ "': " ++ e.reason]
       else []) ++
  (match deleteCmRes with
   | .ok _ => []
   | .err e =>
       if e.status ≠ 404 then
         ["Error deleting configmap '" ++ configmapName ++ "': " ++ e.reason]
       else [])

/-- The formatted string `run` returns when it catches an `ApiException`. -/
def apiErrorMsg (e : ApiError) : String :=
  "Error: A Kubernetes API error occurred. Status: " ++ toString e.status ++
    ", Reason: " ++ e.reason

/-- Job name built by `run`: `f"{prefix}-job-{job_id}"`. -/
def jobNameOf (pfx jobId : String) : String :=
  pfx ++ "-job-" ++ jobId

/-- Configmap name built by `run`: `f"{prefix}-configmap-{job_id}"`. -/
def configmapNameOf (pfx jobId : String) : String :=
  pfx ++ "-configmap-" ++ jobId

/-- Embedding of `KubernetesCodeExecutor.run` (with `job_id` the 8-character
random identifier passed explicitly).  The `try` block stages the configmap,
launches the job and waits; `except ApiException` converts any of those
errors to a formatted string; the `finally` block always runs
`_cleanup_resources` exactly once.  A `TimeoutError` from the wait is not an
`ApiException`, so it escapes (after the `finally` cleanup). -/
def run (env : RunEnv) (pfx jobId : String) (timeout : Nat) :
    RunResult × List KubeOp :=
  let jobName := jobNameOf pfx jobId
  let cmName := configmapNameOf pfx jobId
  let cleanup := cleanupResourcesTrace jobName cmName
  match env.createCmRes with
  | .err e => (.str (apiErrorMsg e), .createConfigMap cmName :: cleanup)
  | .ok _ =>
      match env.createJobRes with
      | .err e =>
          (.str (apiErrorMsg e),
           [.createConfigMap cmName, .createJob jobName] ++ cleanup)
      | .ok _ =>
          let w := waitForJobCompletion timeout jobName env
          let res := match w.1 with
            | .out s => RunResult.str s
            | .raised e => RunResult.str (apiErrorMsg e)
            | .timedOut m => RunResult.timeoutError m
          (res, [.createConfigMap cmName, .createJob jobName] ++ w.2 ++ cleanup)

/-- Embedding of the container `args` list built by `_create_and_run_job`:
with a non-empty library list the first element is a single shell string that
pip-installs the space-joined libraries (with `--no-cache-dir`) and then
invokes `python3`; with an empty list the interpreter is invoked directly. -/
def jobArgs (librariesUsed : List String) : List String :=
  if librariesUsed.length > 0 then
    ["pip3 install --no-cache-dir --user " ++ String.intercalate " " librariesUsed
       ++ " && python3",
     "-u", "/app/script.py"]
  else
    ["python3", "-u", "/app/script.py"]

/-- The container `command` built by `_create_and_run_job` (constant). -/
def jobCommand : List String :=
  ["/bin/bash", "-c"]

/-- Model of Python `str.startswith` at the character level: the candidate
head string's characters are a prefix of the name's characters. -/
def startsWithChars (s p : String) : Bool :=
  p.data.isPrefixOf s.data

/-- Embedding of `cleanup_all_by_prefix` as the trace of deletion calls it
issues, given the names returned by the job listing and the configmap
listing: every job whose name starts with the given string is cleaned up via
`_cleanup_resources` with the placeholder configmap name `"dummy-cm"`, then
every configmap whose name starts with the given string is deleted. -/
def cleanupAllMatching (pfx : String) (jobNames cmNames : List String) :
    List KubeOp :=
  ((jobNames.filter (fun n => startsWithChars n pfx)).map
      (fun j => cleanupResourcesTrace j "dummy-cm")).flatten ++
  (cmNames.filter (fun n => startsWithChars n pfx)).map KubeOp.deleteConfigMap

/-- Outcome of `executor.run(...)` as seen by the tool wrapper `_run`:
either a returned string or an exception carrying a message. -/
inductive ExecOutcome where
  | ret : String → ExecOutcome
  | exc : String → ExecOutcome
  deriving Repr, DecidableEq

/-- How a `RunResult` is observed by the wrapper: a returned string stays a
return; the escaping `TimeoutError` is an exception whose `str` is its
message. -/
def outcomeOfRun : RunResult → ExecOutcome
  | .str s => .ret s
  | .timeoutError m => .exc m

/-- Embedding of `KubernetesExecutionTool._run`: the returned string is
passed through, and any exception `e` (of any kind) is caught and converted
to `f"An unexpected error occurred: {e}"`.  This function is total: it
always returns a string. -/
def toolRun (o : ExecOutcome) : String :=
  match o with
  | .ret s => s
  | .exc m => "An unexpected error occurred: " ++ m

/-- Substring containment, used to state properties about markers inside
returned strings. -/
def ContainsSubstr (s t : String) : Prop :=
  ∃ p q, s = p ++ t ++ q

/-- A benign platform environment: staging and launching succeed, the status
poll is forever pending, one pod exists and its log reads back. -/
def baseEnv : RunEnv where
  createCmRes := .ok ()
  createJobRes := .ok ()
  poll := fun _ => .st false false
  listPodsRes := .ok ["pod-a"]
  readLogRes := fun _ => .ok "hello\n"
  deleteJobRes := .ok ()
  deleteCmRes := .ok ()

/-- Environment whose first status poll already reports the job failed. -/
def envFail : RunEnv :=
  { baseEnv with poll := fun _ => .st false true }

/-- Environment whose first status poll is a 404 (job not yet registered)
and whose second poll reports success. -/
def env404 : RunEnv :=
  { baseEnv with
    poll := fun i => if i = 0 then .err ⟨404, "Not Found"⟩ else .st true false }

/-- Environment in which staging the configmap fails with a 500. -/
def envStageErr : RunEnv :=
  { baseEnv with createCmRes := .err ⟨500, "Internal Server Error"⟩ }

/-! ### Unfolding lemmas for the wait loop -/

/-- When the deadline has passed, the loop raises the `TimeoutError`. -/
theorem waitLoop_stop (t : Nat) (n : String) (env : RunEnv) (i el : Nat)
    (h : ¬ el < t) :
    waitLoop t n env i el = (.timedOut (timeoutMsg n t), []) := by
  rw [waitLoop, dif_neg h]

/-- A poll observing `succeeded` returns the pod logs. -/
theorem waitLoop_step_succeeded (t : Nat) (n : String) (env : RunEnv)
    (i el : Nat) (b : Bool) (h : el < t) (hp : env.poll i = .st true b) :
    waitLoop t n env i el =
      (.out (getPodLogs n env.listPodsRes env.readLogRes).1,
       .readJobStatus n :: (getPodLogs n env.listPodsRes env.readLogRes).2) := by
  rw [waitLoop, dif_pos h, hp]

/-- A poll observing `failed` returns the failure-marked pod logs. -/
theorem waitLoop_step_failed (t : Nat) (n : String) (env : RunEnv)
    (i el : Nat) (h : el < t) (hp : env.poll i = .st false true) :
    waitLoop t n env i el =
      (.out ("Job failed. Logs:\n" ++ (getPodLogs n env.listPodsRes env.readLogRes).1),
       .readJobStatus n :: (getPodLogs n env.listPodsRes env.readLogRes).2) := by
  rw [waitLoop, dif_pos h, hp]

/-- A pending poll sleeps 2 seconds and loops. -/
theorem waitLoop_step_pending (t : Nat) (n : String) (env : RunEnv)
    (i el : Nat) (h : el < t) (hp : env.poll i = .st false false) :
    waitLoop t n env i el =
      ((waitLoop t n env (i + 1) (el + 2)).1,
       .readJobStatus n :: (waitLoop t n env (i + 1) (el + 2)).2) := by
  rw [waitLoop, dif_pos h, hp]

/-- A 404 from the status query sleeps 1 second and retries. -/
theorem waitLoop_step_404 (t : Nat) (n : String) (env : RunEnv)
    (i el : Nat) (e : ApiError) (h : el < t) (hp : env.poll i = .err e)
    (h4 : e.status = 404) :
    waitLoop t n env i el =
      ((waitLoop t n env (i + 1) (el + 1)).1,
       .readJobStatus n :: (waitLoop t n env (i + 1) (el + 1)).2) := by
  rw [waitLoop, dif_pos h, hp]
  dsimp only
  rw [if_pos h4]

/-- Any other `ApiException` from the status query is re-raised. -/
theorem waitLoop_step_raise (t : Nat) (n : String) (env : RunEnv)
    (i el : Nat) (e : ApiError) (h : el < t) (hp : env.poll i = .err e)
    (h4 : ¬ e.status = 404) :
    waitLoop t n env i el = (.raised e, [.readJobStatus n]) := by
  rw [waitLoop, dif_pos h, hp]
  dsimp only
  rw [if_neg h4]

/-! ### Structural facts about the traces and results -/

/-- Log retrieval issues no deletion calls. -/
theorem getPodLogs_no_delete (n : String) (lr : ApiResult (List String))
    (rl : String → ApiResult String) :
    ∀ op ∈ (getPodLogs n lr rl).2, op.isDelete = false := by
  intro op hop
  cases lr with
  | err e =>
      simp [getPodLogs] at hop
      subst hop; rfl
  | ok pods =>
      cases pods with
      | nil =>
          simp [getPodLogs] at hop
          subst hop; rfl
      | cons p ps =>
          cases hrl : rl p with
          | ok s =>
              simp [getPodLogs, hrl] at hop
              rcases hop with h | h <;> subst h <;> rfl
          | err e =>
              simp [getPodLogs, hrl] at hop
              rcases hop with h | h <;> subst h <;> rfl

/-- The wait loop issues no deletion calls (bounded-recursion form). -/
theorem waitLoop_no_delete_bound (t : Nat) (n : String) (env : RunEnv) :
    ∀ d i el, t - el ≤ d → ∀ op ∈ (waitLoop t n env i el).2, op.isDelete = false := by
  intro d
  induction d with
  | zero =>
      intro i el hle op hop
      rw [waitLoop_stop t n env i el (by omega)] at hop
      simp at hop
  | succ d ih =>
      intro i el hle op hop
      by_cases hlt : el < t
      · cases hpoll : env.poll i with
        | st sb fb =>
            cases sb with
            | true =>
                rw [waitLoop_step_succeeded t n env i el fb hlt hpoll] at hop
                simp at hop
                rcases hop with h | h
                · subst h; rfl
                · exact getPodLogs_no_delete n env.listPodsRes env.readLogRes op h
            | false =>
                cases fb with
                | true =>
                    rw [waitLoop_step_failed t n env i el hlt hpoll] at hop
                    simp at hop
                    rcases hop with h | h
                    · subst h; rfl
                    · exact getPodLogs_no_delete n env.listPodsRes env.readLogRes op h
                | false =>
                    rw [waitLoop_step_pending t n env i el hlt hpoll] at hop
                    simp at hop
                    rcases hop with h | h
                    · subst h; rfl
                    · exact ih (i + 1) (el + 2) (by omega) op h
        | err e =>
            by_cases h4 : e.status = 404
            · rw [waitLoop_step_404 t n env i el e hlt hpoll h4] at hop
              simp at hop
              rcases hop with h | h
              · subst h; rfl
              · exact ih (i + 1) (el + 1) (by omega) op h
            · rw [waitLoop_step_raise t n env i el e hlt hpoll h4] at hop
              simp at hop
              subst hop; rfl
      · rw [waitLoop_stop t n env i el hlt] at hop
        simp at hop

/-- The wait loop issues no deletion calls. -/
theorem waitLoop_no_delete (t : Nat) (n : String) (env : RunEnv) (i el : Nat) :
    ∀ op ∈ (waitLoop t n env i el).2, op.isDelete = false :=
  waitLoop_no_delete_bound t n env (t - el) i el (Nat.le_refl _)

/-- The wait result is a returned string, a re-raised `ApiException`, or the
`TimeoutError` with its canonical message (bounded-recursion form). -/
theorem waitLoop_shape_bound (t : Nat) (n : String) (env : RunEnv) :
    ∀ d i el, t - el ≤ d →
      (∃ s, (waitLoop t n env i el).1 = .out s) ∨
      (∃ e, (waitLoop t n env i el).1 = .raised e) ∨
      (waitLoop t n env i el).1 = .timedOut (timeoutMsg n t) := by
  intro d
  induction d with
  | zero =>
      intro i el hle
      rw [waitLoop_stop t n env i el (by omega)]
      exact Or.inr (Or.inr rfl)
  | succ d ih =>
      intro i el hle
      by_cases hlt : el < t
      · cases hpoll : env.poll i with
        | st sb fb =>
            cases sb with
            | true =>
                rw [waitLoop_step_succeeded t n env i el fb hlt hpoll]
                exact Or.inl ⟨_, rfl⟩
            | false =>
                cases fb with
                | true =>
                    rw [waitLoop_step_failed t n env i el hlt hpoll]
                    exact Or.inl ⟨_, rfl⟩
                | false =>
                    rw [waitLoop_step_pending t n env i el hlt hpoll]
                    exact ih (i + 1) (el + 2) (by omega)
        | err e =>
            by_cases h4 : e.status = 404
            · rw [waitLoop_step_404 t n env i el e hlt hpoll h4]
              exact ih (i + 1) (el + 1) (by omega)
            · rw [waitLoop_step_raise t n env i el e hlt hpoll h4]
              exact Or.inr (Or.inl ⟨_, rfl⟩)
      · rw [waitLoop_stop t n env i el hlt]
        exact Or.inr (Or.inr rfl)

/-- The wait result is a returned string, a re-raised `ApiException`, or the
`TimeoutError` with its canonical message. -/
theorem waitLoop_shape (t : Nat) (n : String) (env : RunEnv) (i el : Nat) :
    (∃ s, (waitLoop t n env i el).1 = .out s) ∨
    (∃ e, (waitLoop t n env i el).1 = .raised e) ∨
    (waitLoop t n env i el).1 = .timedOut (timeoutMsg n t) :=
  waitLoop_shape_bound t n env (t - el) i el (Nat.le_refl _)

/-- If every poll is pending or a 404, the loop ends in the `TimeoutError`
(bounded-recursion form). -/
theorem waitLoop_nonterminal_bound (t : Nat) (n : String) (env : RunEnv)
    (H : ∀ i, env.poll i = .st false false ∨
      ∃ e, env.poll i = .err e ∧ e.status = 404) :
    ∀ d i el, t - el ≤ d →
      (waitLoop t n env i el).1 = .timedOut (timeoutMsg n t) := by
  intro d
  induction d with
  | zero =>
      intro i el hle
      rw [waitLoop_stop t n env i el (by omega)]
  | succ d ih =>
      intro i el hle
      by_cases hlt : el < t
      · rcases H i with hp | ⟨e, hp, h4⟩
        · rw [waitLoop_step_pending t n env i el hlt hp]
          exact ih (i + 1) (el + 2) (by omega)
        · rw [waitLoop_step_404 t n env i el e hlt hp h4]
          exact ih (i + 1) (el + 1) (by omega)
      · rw [waitLoop_stop t n env i el hlt]

/-- If every poll is pending or a 404, the loop ends in the `TimeoutError`. -/
theorem waitLoop_nonterminal (t : Nat) (n : String) (env : RunEnv)
    (H : ∀ i, env.poll i = .st false false ∨
      ∃ e, env.poll i = .err e ∧ e.status = 404) (i el : Nat) :
    (waitLoop t n env i el).1 = .timedOut (timeoutMsg n t) :=
  waitLoop_nonterminal_bound t n env H (t - el) i el (Nat.le_refl _)

/-- If the first `k` polls are pending and poll `k` reports failure while
time remains, the loop returns the failure-marked logs. -/
theorem waitLoop_failed_at (t : Nat) (n : String) (env : RunEnv) :
    ∀ k i el, (∀ j, j < k → env.poll (i + j) = .st false false) →
      env.poll (i + k) = .st false true → el + 2 * k < t →
      (waitLoop t n env i el).1 =
        .out ("Job failed. Logs:\n" ++ (getPodLogs n env.listPodsRes env.readLogRes).1) := by
  intro k
  induction k with
  | zero =>
      intro i el _ hk hlt
      rw [Nat.add_zero] at hk
      rw [waitLoop_step_failed t n env i el (by omega) hk]
  | succ k ih =>
      intro i el hpend hk hlt
      have h0 : env.poll i = .st false false := by
        have := hpend 0 (by omega)
        rwa [Nat.add_zero] at this
      rw [waitLoop_step_pending t n env i el (by omega) h0]
      refine ih (i + 1) (el + 2) (fun j hj => ?_) ?_ (by omega)
      · have h := hpend (j + 1) (by omega)
        rwa [show i + (j + 1) = i + 1 + j from by omega] at h
      · have h := hk
        rwa [show i + (k + 1) = i + 1 + k from by omega] at h

/-- A first-poll 404 followed by a succeeded poll yields the pod logs, with
exactly two status queries in the trace: the 404 retry consumes only its
1-second sleep, so this holds already at a 2-second deadline. -/
theorem waitLoop_404_then_succeeded (t : Nat) (n : String) (env : RunEnv)
    (e : ApiError) (b : Bool) (ht : 2 ≤ t) (hp0 : env.poll 0 = .err e)
    (h4 : e.status = 404) (hp1 : env.poll 1 = .st true b) :
    waitForJobCompletion t n env =
      (.out (getPodLogs n env.listPodsRes env.readLogRes).1,
       [.readJobStatus n, .readJobStatus n] ++
         (getPodLogs n env.listPodsRes env.readLogRes).2) := by
  unfold waitForJobCompletion
  rw [waitLoop_step_404 t n env 0 0 e (by omega) hp0 h4]
  rw [waitLoop_step_succeeded t n env 1 1 b (by omega) hp1]
  rfl

/-- Staging and launching succeeding and no poll ever terminal: the
`TimeoutError` escapes `run`. -/
theorem run_timeoutError (env : RunEnv) (pfx jobId : String) (t : Nat)
    (hc : env.createCmRes = .ok ()) (hj : env.createJobRes = .ok ())
    (H : ∀ i, env.poll i = .st false false ∨
      ∃ e, env.poll i = .err e ∧ e.status = 404) :
    (run env pfx jobId t).1 = .timeoutError (timeoutMsg (jobNameOf pfx jobId) t) := by
  have hw := waitLoop_nonterminal t (jobNameOf pfx jobId) env H 0 0
  simp [run, hc, hj, waitForJobCompletion, hw]

/-- Characters of a substring occur in the enclosing string. -/
theorem containsSubstr_mem_data (s t : String) (h : ContainsSubstr s t) :
    ∀ c ∈ t.data, c ∈ s.data := by
  rcases h with ⟨p, q, rfl⟩
  intro c hc
  rw [String.data_append, String.data_append]
  exact List.mem_append.mpr (Or.inl (List.mem_append.mpr (Or.inr hc)))

/-- A string contains its left append component. -/
theorem containsSubstr_head (a b : String) : ContainsSubstr (a ++ b) a :=
  ⟨"", b, by rw [String.empty_append]⟩

/-- A string contains its right append component. -/
theorem containsSubstr_tail (a b : String) : ContainsSubstr (a ++ b) b :=
  ⟨a, "", by rw [String.append_empty]⟩

/-- The failure-marked output contains the failure marker. -/
theorem containsSubstr_failMarker (l : String) :
    ContainsSubstr ("Job failed. Logs:\n" ++ l) "Job failed" := by
  have h : "Job failed. Logs:\n" = "Job failed" ++ ". Logs:\n" := by decide
  rw [h, String.append_assoc]
  exact containsSubstr_head _ _

/-! ### Claim theorems -/

/-- C1 (amended): `run` returns a string — the captured output, a
failure-annotated output, or a formatted error string — on every path except
the timeout case: every `ApiException` from staging, launching or waiting is
converted to the formatted API-error message, but when the wait deadline
expires the `TimeoutError` (with its canonical message) escapes `run` to its
caller, as the method's own docstring states. -/
theorem c1_run_string_or_timeout (env : RunEnv) (pfx jobId : String) (t : Nat) :
    (∃ s, (run env pfx jobId t).1 = .str s) ∨
    (run env pfx jobId t).1 = .timeoutError (timeoutMsg (jobNameOf pfx jobId) t) := by
  cases hc : env.createCmRes with
  | err e => exact Or.inl ⟨apiErrorMsg e, by simp [run, hc]⟩
  | ok u =>
      cases hj : env.createJobRes with
      | err e => exact Or.inl ⟨apiErrorMsg e, by simp [run, hc, hj]⟩
      | ok v =>
          rcases waitLoop_shape t (jobNameOf pfx jobId) env 0 0 with
            ⟨s, hs⟩ | ⟨e, he⟩ | ht
          · exact Or.inl ⟨s, by simp [run, hc, hj, waitForJobCompletion, hs]⟩
          · exact Or.inl ⟨apiErrorMsg e,
              by simp [run, hc, hj, waitForJobCompletion, he]⟩
          · exact Or.inr (by simp [run, hc, hj, waitForJobCompletion, ht])

/-- C1 counterexample: in a benign environment whose status poll never turns
terminal, `run` with a 2-second timeout does not return a string — the
`TimeoutError` escapes to the caller (only `ApiException` is caught by
`run`'s `except` clause), falsifying "run never raises; every internal error
kind, including the timeout case, is converted to a formatted message". -/
theorem c1_counterexample :
    ((run baseEnv "code-runner" "abc12345" 2).1).isStr = false := by
  have h := run_timeoutError baseEnv "code-runner" "abc12345" 2 rfl rfl
    (fun _ => Or.inl rfl)
  rw [h]
  rfl

/-- C2: every `run` invocation performs the cleanup deletions exactly once,
as the final calls of its trace, on that run's own job and configmap names,
whatever the environment does (success, staging failure, launch failure,
wait-time API error, or timeout); moreover a staging failure skips the
launch and the wait but not the cleanup, and a launch failure skips the wait
but not the cleanup. -/
theorem c2_cleanup_exactly_once (env : RunEnv) (pfx jobId : String) (t : Nat) :
    (∃ A, (run env pfx jobId t).2 =
        A ++ cleanupResourcesTrace (jobNameOf pfx jobId) (configmapNameOf pfx jobId) ∧
        ∀ op ∈ A, op.isDelete = false) ∧
    (∀ e, env.createCmRes = .err e →
      (run env pfx jobId t).2 =
        [.createConfigMap (configmapNameOf pfx jobId)] ++
          cleanupResourcesTrace (jobNameOf pfx jobId) (configmapNameOf pfx jobId)) ∧
    (∀ u e, env.createCmRes = .ok u → env.createJobRes = .err e →
      (run env pfx jobId t).2 =
        [.createConfigMap (configmapNameOf pfx jobId),
         .createJob (jobNameOf pfx jobId)] ++
          cleanupResourcesTrace (jobNameOf pfx jobId) (configmapNameOf pfx jobId)) := by
  refine ⟨?_, ?_, ?_⟩
  · cases hc : env.createCmRes with
    | err e =>
        refine ⟨[.createConfigMap (configmapNameOf pfx jobId)], by simp [run, hc], ?_⟩
        intro op hop
        simp at hop
        subst hop; rfl
    | ok u =>
        cases hj : env.createJobRes with
        | err e =>
            refine ⟨[.createConfigMap (configmapNameOf pfx jobId),
                     .createJob (jobNameOf pfx jobId)], by simp [run, hc, hj], ?_⟩
            intro op hop
            simp at hop
            rcases hop with h | h <;> subst h <;> rfl
        | ok v =>
            refine ⟨[.createConfigMap (configmapNameOf pfx jobId),
                     .createJob (jobNameOf pfx jobId)] ++
                      (waitForJobCompletion t (jobNameOf pfx jobId) env).2,
                    by simp [run, hc, hj], ?_⟩
            intro op hop
            simp at hop
            rcases hop with h | h | h
            · subst h; rfl
            · subst h; rfl
            · exact waitLoop_no_delete t (jobNameOf pfx jobId) env 0 0 op h
  · intro e hc
    simp [run, hc]
  · intro u e hc hj
    simp [run, hc, hj]

/-- C2 witness: with a failed staging call, `run`'s trace is the staging
attempt followed by exactly the two cleanup deletions. -/
theorem c2_witness :
    envStageErr.createCmRes = .err ⟨500, "Internal Server Error"⟩ ∧
    (run envStageErr "code-runner" "abc12345" 7).2 =
      [.createConfigMap (configmapNameOf "code-runner" "abc12345")] ++
        cleanupResourcesTrace (jobNameOf "code-runner" "abc12345")
          (configmapNameOf "code-runner" "abc12345") :=
  ⟨rfl, (c2_cleanup_exactly_once envStageErr "code-runner" "abc12345" 7).2.1
    ⟨500, "Internal Server Error"⟩ rfl⟩

/-- C3: if every status poll is non-terminal (pending, or the transient 404),
the watcher ends with the `TimeoutError` whose message names the job and the
configured timeout value; the deadline counts only the sleep time accumulated
since the watcher's entry (its clock starts at 0 on the first poll attempt),
and the timeout outcome is distinct from any returned (failure) output. -/
theorem c3_watcher_timeout (t : Nat) (n : String) (env : RunEnv)
    (H : ∀ i, env.poll i = .st false false ∨
      ∃ e, env.poll i = .err e ∧ e.status = 404) :
    (waitForJobCompletion t n env).1 = .timedOut (timeoutMsg n t) ∧
    ContainsSubstr (timeoutMsg n t) n ∧
    ContainsSubstr (timeoutMsg n t) (toString t) ∧
    ∀ s, (waitForJobCompletion t n env).1 ≠ .out s := by
  have h : (waitForJobCompletion t n env).1 = .timedOut (timeoutMsg n t) :=
    waitLoop_nonterminal t n env H 0 0
  refine ⟨h, ?_, ?_, ?_⟩
  · exact ⟨"Job '", "' did not complete within " ++ toString t ++ " seconds.",
      by simp [timeoutMsg, String.append_assoc]⟩
  · exact ⟨"Job '" ++ n ++ "' did not complete within ", " seconds.",
      by simp [timeoutMsg, String.append_assoc]⟩
  · intro s hs
    rw [h] at hs
    exact WaitResult.noConfusion hs

/-- C3 witness: the forever-pending environment at a 2-second deadline ends
in the `TimeoutError` with its canonical message. -/
theorem c3_witness :
    (∀ i, baseEnv.poll i = .st false false ∨
      ∃ e, baseEnv.poll i = .err e ∧ e.status = 404) ∧
    (waitForJobCompletion 2 "j" baseEnv).1 = .timedOut (timeoutMsg "j" 2) :=
  ⟨fun _ => Or.inl rfl,
   (c3_watcher_timeout 2 "j" baseEnv (fun _ => Or.inl rfl)).1⟩

/-- C4: the Reaper deletes the job then the configmap — both deletions are
always attempted, independently of each other's outcome — and never fails
its caller: a 404 on either deletion produces no report at all, any other
deletion error produces only a printed report (the function still returns
normally, its report list being its entire observable output), and a second
call on the same pair, where both resources are already gone (both deletions
404), produces no error. -/
theorem c4_reaper (j c : String) :
    cleanupResourcesTrace j c = [.deleteJob j, .deleteConfigMap c] ∧
    (∀ e1 e2 : ApiError, e1.status = 404 → e2.status = 404 →
      cleanupResourcesReports j c (.err e1) (.err e2) = []) ∧
    (∀ e : ApiError, e.status ≠ 404 →
      cleanupResourcesReports j c (.err e) (.ok ()) =
        ["Error deleting job '" ++ j ++ "': " ++ e.reason]) ∧
    (∀ e : ApiError, e.status ≠ 404 →
      cleanupResourcesReports j c (.ok ()) (.err e) =
        ["Error deleting configmap '" ++ c ++ "': " ++ e.reason]) ∧
    cleanupResourcesReports j c (.ok ()) (.ok ()) = [] := by
  refine ⟨rfl, ?_, ?_, ?_, rfl⟩
  · intro e1 e2 h1 h2
    simp [cleanupResourcesReports, h1, h2]
  · intro e h
    simp [cleanupResourcesReports, h]
  · intro e h
    simp [cleanupResourcesReports, h]

/-- C4 witness: a second cleanup call on an already-clean pair (both
deletions answered 404) produces no error report. -/
theorem c4_witness :
    (⟨404, "Not Found"⟩ : ApiError).status = 404 ∧
    cleanupResourcesReports "code-runner-job-abc12345"
      "code-runner-configmap-abc12345" (.err ⟨404, "Not Found"⟩)
      (.err ⟨404, "Not Found"⟩) = [] :=
  ⟨rfl, (c4_reaper "code-runner-job-abc12345" "code-runner-configmap-abc12345").2.1
    ⟨404, "Not Found"⟩ ⟨404, "Not Found"⟩ rfl rfl⟩

/-- C5 counterexample: `cleanup_all_by_prefix "foo"` on a namespace whose
job listing is `["foo-job-1"]` and whose configmap listing is `["bar-cm"]`
issues a deletion call for the configmap named `"dummy-cm"` (the placeholder
it passes to `_cleanup_resources` for every matching job), although
`"dummy-cm"` does not start with `"foo"` — falsifying "no deletion call is
issued for any resource not matching the prefix". -/
theorem c5_counterexample :
    KubeOp.deleteConfigMap "dummy-cm" ∈
      cleanupAllMatching "foo" ["foo-job-1"] ["bar-cm"] ∧
    startsWithChars "dummy-cm" "foo" = false := by
  decide

/-- C5 (amended): the bulk cleanup deletes every job and configmap from the
listings whose name starts with the given string and issues no other
deletion call, except that for each matching job it also issues a deletion
call for the fixed placeholder configmap name `"dummy-cm"` (expected to be
absent, its 404 being swallowed). -/
theorem c5_scoped (pfx : String) (jobNames cmNames : List String) :
    (∀ n, KubeOp.deleteJob n ∈ cleanupAllMatching pfx jobNames cmNames →
      n ∈ jobNames ∧ startsWithChars n pfx = true) ∧
    (∀ n, KubeOp.deleteConfigMap n ∈ cleanupAllMatching pfx jobNames cmNames →
      (n ∈ cmNames ∧ startsWithChars n pfx = true) ∨ n = "dummy-cm") ∧
    (∀ j ∈ jobNames, startsWithChars j pfx = true →
      KubeOp.deleteJob j ∈ cleanupAllMatching pfx jobNames cmNames) ∧
    (∀ c ∈ cmNames, startsWithChars c pfx = true →
      KubeOp.deleteConfigMap c ∈ cleanupAllMatching pfx jobNames cmNames) := by
  refine ⟨?_, ?_, ?_, ?_⟩
  · intro n hn
    rcases List.mem_append.mp hn with h | h
    · rcases List.mem_flatten.mp h with ⟨l, hl, hmem⟩
      rcases List.mem_map.mp hl with ⟨jx, hjx, rfl⟩
      simp [cleanupResourcesTrace] at hmem
      rcases List.mem_filter.mp hjx with ⟨hmemj, hsw⟩
      subst hmem
      exact ⟨hmemj, hsw⟩
    · rcases List.mem_map.mp h with ⟨cx, _, hcx⟩
      exact KubeOp.noConfusion hcx
  · intro n hn
    rcases List.mem_append.mp hn with h | h
    · rcases List.mem_flatten.mp h with ⟨l, hl, hmem⟩
      rcases List.mem_map.mp hl with ⟨jx, _, rfl⟩
      simp [cleanupResourcesTrace] at hmem
      exact Or.inr hmem
    · rcases List.mem_map.mp h with ⟨cx, hcx, heq⟩
      rcases List.mem_filter.mp hcx with ⟨hmemc, hsw⟩
      cases heq
      exact Or.inl ⟨hmemc, hsw⟩
  · intro j hj hsw
    refine List.mem_append.mpr (Or.inl ?_)
    refine List.mem_flatten.mpr ⟨cleanupResourcesTrace j "dummy-cm", ?_, ?_⟩
    · exact List.mem_map.mpr ⟨j, List.mem_filter.mpr ⟨hj, hsw⟩, rfl⟩
    · simp [cleanupResourcesTrace]
  · intro c hc hsw
    refine List.mem_append.mpr (Or.inr ?_)
    exact List.mem_map.mpr ⟨c, List.mem_filter.mpr ⟨hc, hsw⟩, rfl⟩

/-- C5 witness: with listings `["foo-job-1"]` and `["foo-configmap-1"]`, the
matching job and matching configmap are both deleted. -/
theorem c5_witness :
    "foo-job-1" ∈ ["foo-job-1"] ∧ startsWithChars "foo-job-1" "foo" = true ∧
    KubeOp.deleteJob "foo-job-1" ∈
      cleanupAllMatching "foo" ["foo-job-1"] ["foo-configmap-1"] ∧
    KubeOp.deleteConfigMap "foo-configmap-1" ∈
      cleanupAllMatching "foo" ["foo-job-1"] ["foo-configmap-1"] :=
  ⟨by decide, by decide,
   (c5_scoped "foo" ["foo-job-1"] ["foo-configmap-1"]).2.2.1
     "foo-job-1" (by decide) (by decide),
   (c5_scoped "foo" ["foo-job-1"] ["foo-configmap-1"]).2.2.2
     "foo-configmap-1" (by decide) (by decide)⟩

/-- C6: the container command line is determined solely by the library list:
with no libraries the args invoke the interpreter directly on the staged
script and contain no install step; with libraries the first arg is one
shell string that pip-installs the space-joined libraries (with
`--no-cache-dir`, so no caching of install artifacts) before invoking the
interpreter; for `["numpy"]` the install step names exactly `numpy`; the
container command is the fixed `/bin/bash -c`. -/
theorem c6_job_args :
    jobArgs [] = ["python3", "-u", "/app/script.py"] ∧
    (∀ a ∈ jobArgs [], ¬ ContainsSubstr a "pip3 install") ∧
    (∀ libs : List String, libs ≠ [] →
      jobArgs libs =
        ["pip3 install --no-cache-dir --user " ++ String.intercalate " " libs
           ++ " && python3",
         "-u", "/app/script.py"]) ∧
    jobArgs ["numpy"] =
      ["pip3 install --no-cache-dir --user numpy && python3", "-u", "/app/script.py"] ∧
    jobCommand = ["/bin/bash", "-c"] := by
  refine ⟨rfl, ?_, ?_, by decide, rfl⟩
  · intro a ha h
    have hl := containsSubstr_mem_data a "pip3 install" h 'l' (by decide)
    simp [jobArgs] at ha
    rcases ha with rfl | rfl | rfl
    · exact absurd hl (by decide)
    · exact absurd hl (by decide)
    · exact absurd hl (by decide)
  · intro libs hlibs
    cases libs with
    | nil => exact absurd rfl hlibs
    | cons x xs => simp [jobArgs]

/-- C6 witness: the interpreter-only arg carries no install step, and a
one-library list yields exactly that library in the install command. -/
theorem c6_witness :
    "python3" ∈ jobArgs [] ∧
    ¬ ContainsSubstr "python3" "pip3 install" ∧
    jobArgs ["numpy"] =
      ["pip3 install --no-cache-dir --user " ++ String.intercalate " " ["numpy"]
         ++ " && python3",
       "-u", "/app/script.py"] :=
  ⟨by decide, c6_job_args.2.1 "python3" (by decide),
   c6_job_args.2.2.1 ["numpy"] (by decide)⟩

/-- C7: if the job's status polls are pending until poll `k` reports failure
(with time remaining on the deadline), the watcher returns a string — not an
error — that contains the failure marker `"Job failed"` and contains the log
text fetched from the job's pod. -/
theorem c7_failed_output (t : Nat) (n : String) (env : RunEnv) (k : Nat)
    (hpend : ∀ j, j < k → env.poll j = .st false false)
    (hk : env.poll k = .st false true) (ht : 2 * k < t) :
    ∃ s, (waitForJobCompletion t n env).1 = .out s ∧
      ContainsSubstr s "Job failed" ∧
      ContainsSubstr s (getPodLogs n env.listPodsRes env.readLogRes).1 := by
  have h := waitLoop_failed_at t n env k 0 0
    (fun j hj => by simpa using hpend j hj) (by simpa using hk) (by omega)
  exact ⟨_, h, containsSubstr_failMarker _, containsSubstr_tail _ _⟩

/-- C7 witness: a first-poll failure at a 300-second deadline returns a
failure-marked string containing the fetched logs. -/
theorem c7_witness :
    envFail.poll 0 = .st false true ∧ 2 * 0 < 300 ∧
    ∃ s, (waitForJobCompletion 300 "j" envFail).1 = .out s ∧
      ContainsSubstr s "Job failed" ∧
      ContainsSubstr s (getPodLogs "j" envFail.listPodsRes envFail.readLogRes).1 :=
  ⟨rfl, by decide,
   c7_failed_output 300 "j" envFail 0
     (fun j hj => absurd hj (Nat.not_lt_zero j)) rfl (by decide)⟩

/-- C8: a 404 from the first status query is transient — the watcher sleeps
only 1 second and retries, so a subsequent succeeded status yields the pod
logs even at a 2-second deadline — whereas any non-404 status-query error is
re-raised immediately after a single query; by contrast a pending first poll
consumes the full 2-second poll interval, so at a 2-second deadline it
times out. -/
theorem c8_transient_404 (t : Nat) (n : String) (env : RunEnv) :
    (∀ (e : ApiError) (b : Bool), 2 ≤ t → env.poll 0 = .err e →
      e.status = 404 → env.poll 1 = .st true b →
      (waitForJobCompletion t n env).1 =
        .out (getPodLogs n env.listPodsRes env.readLogRes).1) ∧
    (∀ e : ApiError, 0 < t → env.poll 0 = .err e → e.status ≠ 404 →
      waitForJobCompletion t n env = (.raised e, [.readJobStatus n])) ∧
    (env.poll 0 = .st false false →
      (waitForJobCompletion 2 n env).1 = .timedOut (timeoutMsg n 2)) := by
  refine ⟨?_, ?_, ?_⟩
  · intro e b ht hp0 h4 hp1
    rw [waitLoop_404_then_succeeded t n env e b ht hp0 h4 hp1]
  · intro e ht hp0 h4
    unfold waitForJobCompletion
    exact waitLoop_step_raise t n env 0 0 e ht hp0 h4
  · intro hp0
    unfold waitForJobCompletion
    rw [waitLoop_step_pending 2 n env 0 0 (by omega) hp0]
    rw [waitLoop_stop 2 n env 1 2 (by omega)]

/-- C8 witness: in the environment whose first poll is a 404 and second poll
is succeeded, a 2-second deadline still yields the pod logs. -/
theorem c8_witness :
    (2 : Nat) ≤ 2 ∧ env404.poll 0 = .err ⟨404, "Not Found"⟩ ∧
    env404.poll 1 = .st true false ∧
    (waitForJobCompletion 2 "j" env404).1 =
      .out (getPodLogs "j" env404.listPodsRes env404.readLogRes).1 :=
  ⟨by decide, rfl, rfl,
   (c8_transient_404 2 "j" env404).1 ⟨404, "Not Found"⟩ false (by decide) rfl rfl rfl⟩

/-- C9: `_get_pod_logs` is total over platform responses: a failed pod
listing yields a descriptive error string, an empty pod listing yields the
descriptive placeholder string, a failed log read yields the descriptive
error string, and a successful read yields the trimmed log text — in no case
does an error propagate. -/
theorem c9_get_pod_logs_total (n : String) (e : ApiError)
    (rl : String → ApiResult String) :
    (getPodLogs n (.err e) rl).1 =
      "Could not retrieve logs. Kubernetes API Error: " ++ e.reason ∧
    (getPodLogs n (.ok []) rl).1 =
      "Could not find pod for the job. It might have been deleted or failed to start." ∧
    (∀ p ps, rl p = .err e →
      (getPodLogs n (.ok (p :: ps)) rl).1 =
        "Could not retrieve logs. Kubernetes API Error: " ++ e.reason) ∧
    (∀ p ps s, rl p = .ok s →
      (getPodLogs n (.ok (p :: ps)) rl).1 = s.trim) := by
  refine ⟨rfl, rfl, ?_, ?_⟩
  · intro p ps hrl
    simp [getPodLogs, hrl]
  · intro p ps s hrl
    simp [getPodLogs, hrl]

/-- C9 witness: a pod list failure and a successful log read each produce
the corresponding string. -/
theorem c9_witness :
    (getPodLogs "j" (.err ⟨500, "boom"⟩) baseEnv.readLogRes).1 =
      "Could not retrieve logs. Kubernetes API Error: " ++ "boom" ∧
    baseEnv.readLogRes "pod-a" = .ok "hello\n" ∧
    (getPodLogs "j" (.ok ["pod-a"]) baseEnv.readLogRes).1 = "hello\n".trim :=
  ⟨(c9_get_pod_logs_total "j" ⟨500, "boom"⟩ baseEnv.readLogRes).1, rfl,
   (c9_get_pod_logs_total "j" ⟨500, "boom"⟩ baseEnv.readLogRes).2.2.2
     "pod-a" [] "hello\n" rfl⟩

/-- C10: the tool wrapper `_run` returns a string for every outcome of the
underlying executor: a returned string is passed through unchanged, and an
escaping exception — in particular the `TimeoutError` from the wait deadline
— is caught and converted to the formatted "An unexpected error occurred"
string, so the tool-level interface never raises. -/
theorem c10_tool_wrapper (env : RunEnv) (pfx jobId : String) (t : Nat) :
    (∀ s, (run env pfx jobId t).1 = .str s →
      toolRun (outcomeOfRun (run env pfx jobId t).1) = s) ∧
    (∀ m, (run env pfx jobId t).1 = .timeoutError m →
      toolRun (outcomeOfRun (run env pfx jobId t).1) =
        "An unexpected error occurred: " ++ m) := by
  constructor
  · intro s h
    rw [h]
    rfl
  · intro m h
    rw [h]
    rfl

/-- C10 witness: the timed-out run's escaping `TimeoutError` is converted by
the wrapper to the formatted error string. -/
theorem c10_witness :
    (run baseEnv "code-runner" "abc12345" 2).1 =
      .timeoutError (timeoutMsg (jobNameOf "code-runner" "abc12345") 2) ∧
    toolRun (outcomeOfRun (run baseEnv "code-runner" "abc12345" 2).1) =
      "An unexpected error occurred: " ++
        timeoutMsg (jobNameOf "code-runner" "abc12345") 2 :=
  have h := run_timeoutError baseEnv "code-runner" "abc12345" 2 rfl rfl
    (fun _ => Or.inl rfl)
  ⟨h, (c10_tool_wrapper baseEnv "code-runner" "abc12345" 2).2 _ h⟩

end KubeExec
